import Mathlib

/-!
Shallow embedding of the leave-management backend (`src/main.py`, `src/schemas.py`).

Conventions of the embedding:
* The Mongo collections `user` and `leave` become Lean lists inside a `DB`
  structure; `find_one(query)` becomes `List.find?` on the insertion-ordered
  list, `update_one` updates the first matching record, `insert_one` appends.
* `hashlib.sha256(...).hexdigest()` is kept abstract: every function that
  hashes takes the digest function `H : String → String` as a parameter, so
  theorems quantify over it (only determinism of the digest matters).
* An `HTTPException(status, detail)` raised by a handler becomes
  `PyError.http status detail`; the `bson.errors.InvalidId` exception raised
  by `ObjectId(...)` on a malformed id string (which no handler catches)
  becomes `PyError.invalidId`.
* `datetime.fromisoformat(s).date()` on the documented `YYYY-MM-DD` request
  format becomes `parseDate`, a concrete calendar-date parser (leap years
  included); dates compare lexicographically by (year, month, day).
* `submitted_at` timestamps are modelled as an abstract ordinal `Nat`;
  `decided_at` (fed to Mongo's `$year`/`$month` in the stats pipeline)
  is modelled as an optional calendar `Date`.
* Mongo's `.sort("submitted_at", -1)` becomes `List.insertionSort` with the
  descending-by-`submitted_at` relation (any sorted permutation models the
  store's sort, whose tie order is unspecified).
-/

namespace LeaveMgmt

/-- Roles, `Literal["student", "faculty", "admin"]` in `schemas.py`. -/
inductive Role where
  | student
  | faculty
  | admin
  deriving DecidableEq, Repr

/-- Leave lifecycle status, `Literal["pending", "approved", "rejected"]`. -/
inductive LeaveStatus where
  | pending
  | approved
  | rejected
  deriving DecidableEq, Repr

/-- Leave type, `Literal["sick", "casual", "other"]`. -/
inductive LeaveType where
  | sick
  | casual
  | other
  deriving DecidableEq, Repr

/-- A calendar date (as produced by `datetime.fromisoformat(s).date()`). -/
structure Date where
  year : Nat
  month : Nat
  day : Nat
  deriving DecidableEq, Repr

/-- Python `date` comparison: lexicographic on (year, month, day). -/
def Date.lt (a b : Date) : Bool :=
  a.year < b.year ||
    (a.year = b.year && (a.month < b.month ||
      (a.month = b.month && a.day < b.day)))

def isDigitChar (c : Char) : Bool := '0' ≤ c && c ≤ '9'

def digitsToNat (cs : List Char) : Nat :=
  cs.foldl (fun acc c => acc * 10 + (c.toNat - 48)) 0

def isLeapYear (y : Nat) : Bool := (y % 4 = 0 && ¬ y % 100 = 0) || y % 400 = 0

def daysInMonth (y m : Nat) : Nat :=
  if m = 2 then (if isLeapYear y then 29 else 28)
  else if m = 4 || m = 6 || m = 9 || m = 11 then 30
  else 31

/-- `datetime.fromisoformat(s).date()` on the documented `YYYY-MM-DD`
calendar-date request format: `none` models the parse raising, in which case
`apply_leave` answers 400. -/
def parseDate (s : String) : Option Date :=
  match s.data with
  | [y1, y2, y3, y4, '-', m1, m2, '-', d1, d2] =>
    if ([y1, y2, y3, y4, m1, m2, d1, d2].all isDigitChar) then
      let y := digitsToNat [y1, y2, y3, y4]
      let m := digitsToNat [m1, m2]
      let d := digitsToNat [d1, d2]
      if 1 ≤ y && 1 ≤ m && m ≤ 12 && 1 ≤ d && d ≤ daysInMonth y m then
        some ⟨y, m, d⟩
      else none
    else none
  | _ => none

/-- A failure escaping a handler: either a raised `HTTPException`
(status code + detail string) or the uncaught `bson.errors.InvalidId`. -/
inductive PyError where
  | http (status : Nat) (detail : String)
  | invalidId (arg : String)
  deriving DecidableEq, Repr

/-- A document of the `user` collection (`schemas.py` `User`, plus the
`_id` assigned by the store and the `_token` field written by `login`). -/
structure User where
  oid : String
  name : String
  email : String
  password_hash : String
  role : Role
  department : Option String
  is_active : Bool
  token : Option String
  deriving DecidableEq, Repr

/-- A document of the `leave` collection (`schemas.py` `Leave`, plus `_id`). -/
structure Leave where
  oid : String
  applicant_id : String
  applicant_name : String
  applicant_role : Role
  reason : String
  ltype : LeaveType
  start_date : Date
  end_date : Date
  attachment_url : Option String
  status : LeaveStatus
  decided_by_id : Option String
  decided_by_name : Option String
  decided_by_role : Option Role
  decision_comment : Option String
  submitted_at : Nat
  decided_at : Option Date
  deriving DecidableEq, Repr

/-- The document store: the `user` and `leave` collections in insertion
order. -/
structure DB where
  users : List User
  leaves : List Leave
  deriving DecidableEq, Repr

/-- `update_one(filter, {"$set": ...})`: rewrite the first matching
document, leave the rest alone. -/
def updateFirst (p : α → Bool) (f : α → α) : List α → List α
  | [] => []
  | x :: xs => if p x then f x :: xs else x :: updateFirst p f xs

/-- `hash_password` (main.py line 26): sha256 hexdigest of the password. -/
def hash_password (H : String → String) (pw : String) : String := H pw

/-- `make_token` (main.py line 55): sha256 hexdigest of
`"{email}:{password_hash}"`. -/
def make_token (H : String → String) (email password_hash : String) : String :=
  H (email ++ ":" ++ password_hash)

/-- `auth_user` (main.py lines 68-79): read the `X-Token` header (absent or
empty is falsy → 401 "Missing auth token"), look up the user whose stored
`_token` equals it (miss → 401 "Invalid token"). -/
def auth_user (xToken : Option String) (db : DB) : Except PyError User :=
  match xToken with
  | none => .error (.http 401 "Missing auth token")
  | some t =>
    if t = "" then .error (.http 401 "Missing auth token")
    else
      match db.users.find? (fun u => u.token = some t) with
      | none => .error (.http 401 "Invalid token")
      | some u => .ok u

/-- The body of a successful `login` response (the `user` sub-dict carries
id, name, email, role, department — not `is_active`, not the hash). -/
structure LoginResponse where
  token : String
  user_id : String
  name : String
  email : String
  role : Role
  department : Option String
  deriving DecidableEq, Repr

/-- `login` (main.py lines 100-118): find the user by email, check the
password hash, derive the token, store it as the user's `_token`
(overwriting any previous one), return it with the user summary. -/
def login (H : String → String) (email password : String) (db : DB) :
    Except PyError (LoginResponse × DB) :=
  match db.users.find? (fun u => u.email = email) with
  | none => .error (.http 401 "Invalid credentials")
  | some u =>
    if u.password_hash ≠ hash_password H password then
      .error (.http 401 "Invalid credentials")
    else
      let token := make_token H u.email u.password_hash
      let db' : DB :=
        { db with
          users := updateFirst (fun v => v.oid = u.oid)
            (fun v => { v with token := some token }) db.users }
      .ok (⟨token, u.oid, u.name, u.email, u.role, u.department⟩, db')

/-- `LeaveApplyRequest` (main.py lines 41-46); the two dates are raw
strings. -/
structure ApplyRequest where
  reason : String
  ltype : LeaveType
  start_date : String
  end_date : String
  attachment_url : Option String
  deriving DecidableEq, Repr

/-- `apply_leave` (main.py lines 120-146): role gate (student/faculty),
parse both dates (400 on failure), reject end < start (400), insert the new
pending leave snapshotting the applicant, return its id. `newId` is the
`_id` the store assigns, `now` the `submitted_at` timestamp. -/
def apply_leave (payload : ApplyRequest) (user : User) (newId : String)
    (now : Nat) (db : DB) : Except PyError (String × DB) :=
  if ¬ (user.role = .student ∨ user.role = .faculty) then
    .error (.http 403 "Only students or faculty can apply leave")
  else
    match parseDate payload.start_date, parseDate payload.end_date with
    | some sd, some ed =>
      if Date.lt ed sd then
        .error (.http 400 "End date must be after start date")
      else
        let leave : Leave :=
          { oid := newId
            applicant_id := user.oid
            applicant_name := user.name
            applicant_role := user.role
            reason := payload.reason
            ltype := payload.ltype
            start_date := sd
            end_date := ed
            attachment_url := payload.attachment_url
            status := .pending
            decided_by_id := none
            decided_by_name := none
            decided_by_role := none
            decision_comment := none
            submitted_at := now
            decided_at := none }
        .ok (newId, { db with leaves := db.leaves ++ [leave] })
    | _, _ => .error (.http 400 "Invalid date format. Use YYYY-MM-DD")

/-- Descending `submitted_at` order (the `.sort("submitted_at", -1)`
relation): `a` may come before `b` iff `b.submitted_at ≤ a.submitted_at`. -/
def submittedGE (a b : Leave) : Prop := b.submitted_at ≤ a.submitted_at

instance : DecidableRel submittedGE := fun a b =>
  inferInstanceAs (Decidable (b.submitted_at ≤ a.submitted_at))

instance : IsTotal Leave submittedGE :=
  ⟨fun a b => (Nat.le_total b.submitted_at a.submitted_at).imp id id⟩

instance : IsTrans Leave submittedGE :=
  ⟨fun _ _ _ h1 h2 => Nat.le_trans h2 h1⟩

/-- `.sort("submitted_at", -1)`: the collection sorted most recent first. -/
def sortBySubmittedDesc (xs : List Leave) : List Leave :=
  xs.insertionSort submittedGE

/-- `my_leaves` (main.py lines 148-154): all leaves with
`applicant_id = str(user._id)`, sorted by `submitted_at` descending. -/
def my_leaves (user : User) (db : DB) : List Leave :=
  sortBySubmittedDesc (db.leaves.filter (fun l => l.applicant_id = user.oid))

/-- `pending_leaves` (main.py lines 156-171): students are refused (403);
faculty query `{status: pending, applicant_role: student}`, admin query
`{status: pending}`; result sorted by `submitted_at` descending. -/
def pending_leaves (user : User) (db : DB) : Except PyError (List Leave) :=
  if user.role = .student then
    .error (.http 403 "Students cannot view pending approvals")
  else
    let q : Leave → Bool :=
      if user.role = .faculty then
        fun l => l.status = .pending && l.applicant_role = .student
      else
        fun l => l.status = .pending
    .ok (sortBySubmittedDesc (db.leaves.filter q))

def isHexDigitChar (c : Char) : Bool :=
  isDigitChar c || ('a' ≤ c && c ≤ 'f') || ('A' ≤ c && c ≤ 'F')

/-- `bson.ObjectId(s)` accepts exactly a 24-character hex string. -/
def isValidObjectId (s : String) : Bool :=
  s.length = 24 && s.data.all isHexDigitChar

/-- Lower-case an ASCII letter. -/
def charLower (c : Char) : Char :=
  if 'A' ≤ c && c ≤ 'Z' then Char.ofNat (c.toNat + 32) else c

/-- Lower-case a string character by character (hex object ids are
ASCII). -/
def strLower (s : String) : String := ⟨s.data.map charLower⟩

/-- `ObjectId(leave_id)`: a malformed string raises `InvalidId` (uncaught by
the handler); a well-formed one is normalized to lower case (ObjectId
equality is case-insensitive on the hex form). -/
def parseObjectId (s : String) : Except PyError String :=
  if isValidObjectId s then .ok (strLower s) else .error (.invalidId s)

/-- The decision the caller must pass: pydantic restricts `status` to
`Literal["approved", "rejected"]` (main.py lines 48-50). -/
inductive Decision where
  | approved
  | rejected
  deriving DecidableEq, Repr

def Decision.toStatus : Decision → LeaveStatus
  | .approved => .approved
  | .rejected => .rejected

/-- `LeaveDecisionRequest` (main.py lines 48-50). -/
structure DecisionRequest where
  status : Decision
  comment : Option String
  deriving DecidableEq, Repr

/-- The read/check phase of `decide_leave` (main.py lines 174-187): role
gate (403), `ObjectId` parse (raises on malformed id), `find_one` (404),
status check (400 "Leave already decided"), faculty-only-student rule
(403). Returns the leave as read. -/
def decideFind (leave_id : String) (user : User) (db : DB) :
    Except PyError Leave :=
  if ¬ (user.role = .faculty ∨ user.role = .admin) then
    .error (.http 403 "Not authorized")
  else
    match parseObjectId leave_id with
    | .error e => .error e
    | .ok oid =>
      match db.leaves.find? (fun l => l.oid = oid) with
      | none => .error (.http 404 "Leave not found")
      | some leave =>
        if leave.status ≠ .pending then
          .error (.http 400 "Leave already decided")
        else if user.role = .faculty ∧ leave.applicant_role ≠ .student then
          .error (.http 403 "Faculty can only decide student leaves")
        else .ok leave

/-- The write phase of `decide_leave` (main.py lines 189-197): an
UNCONDITIONAL `update_one({"_id": leave._id}, {"$set": ...})` — the filter
carries no `status: pending` condition. -/
def decideApply (leave : Leave) (payload : DecisionRequest) (user : User)
    (now : Date) (db : DB) : DB :=
  { db with
    leaves := updateFirst (fun l => l.oid = leave.oid)
      (fun l =>
        { l with
          status := payload.status.toStatus
          decided_by_id := some user.oid
          decided_by_name := some user.name
          decided_by_role := some user.role
          decision_comment := payload.comment
          decided_at := some now }) db.leaves }

/-- `decide_leave` (main.py lines 173-198): the read/check phase followed by
the unconditional write phase; on success answers `{ok: true}` and the
store holds the updated leave. -/
def decide_leave (leave_id : String) (payload : DecisionRequest)
    (user : User) (now : Date) (db : DB) : Except PyError DB :=
  (decideFind leave_id user db).map
    (fun leave => decideApply leave payload user now db)

/-- The role-scoped `base_filter` of `stats_overview` (main.py lines
202-209). -/
def baseFilter (user : User) (l : Leave) : Bool :=
  match user.role with
  | .student => l.applicant_id = user.oid
  | .faculty => l.applicant_role = .student
  | .admin => true

/-- `count_documents(query)`. -/
def countDocs (p : Leave → Bool) (db : DB) : Nat :=
  (db.leaves.filter p).length

def decidedStatus (l : Leave) : Bool :=
  l.status = .approved || l.status = .rejected

/-- Ascending (year, month) order used by the pipeline's
`$sort: {_id.y: 1, _id.m: 1}`. -/
def ymLE (a b : Nat × Nat) : Prop :=
  a.1 < b.1 ∨ (a.1 = b.1 ∧ a.2 ≤ b.2)

instance : DecidableRel ymLE := fun a b =>
  inferInstanceAs (Decidable (a.1 < b.1 ∨ (a.1 = b.1 ∧ a.2 ≤ b.2)))

/-- The leaves the `$match` stage of the stats pipeline selects: the
role-scoped filter plus `status: {$in: [approved, rejected]}`. -/
def statsMatched (user : User) (db : DB) : List Leave :=
  db.leaves.filter (fun l => baseFilter user l && decidedStatus l)

/-- The `$match`/`$group`/`$sort` aggregation of `stats_overview` (main.py
lines 220-224): decided-status leaves grouped by year and month of
`decided_at`. Mongo's `$year`/`$month` raise on a document whose
`decided_at` is missing/null, which makes the whole `aggregate` call throw;
that is the `.error` case. -/
def aggregatePipeline (user : User) (db : DB) :
    Except String (List ((Nat × Nat) × Nat)) :=
  let matched := statsMatched user db
  if matched.any (fun l => l.decided_at.isNone) then
    .error ("cannot convert missing or null value to date")
  else
    let yms :=
      (matched.filterMap
        (fun l => l.decided_at.map (fun d => (d.year, d.month)))).dedup
    let sorted := yms.insertionSort ymLE
    .ok (sorted.map (fun p =>
      (p, matched.countP
        (fun l => l.decided_at.any (fun d => (d.year, d.month) = p)))))

/-- The `f"{y}-{m:02d}"` key format (main.py line 227). -/
def monthKey (p : Nat × Nat) : String :=
  toString p.1 ++ "-" ++
    (if p.2 < 10 then "0" ++ toString p.2 else toString p.2)

/-- The `stats_overview` response body. -/
structure StatsResponse where
  total : Nat
  pending : Nat
  approved : Nat
  rejected : Nat
  by_month : List (String × Nat)
  deriving DecidableEq, Repr

/-- `stats_overview` (main.py lines 200-238): four role-scoped counts, plus
the by-month mapping; the `try/except: pass` around the aggregation means a
throwing pipeline leaves `by_month` as the empty defaultdict. -/
def stats_overview (user : User) (db : DB) : StatsResponse :=
  { total := countDocs (baseFilter user) db
    pending :=
      countDocs (fun l => l.status = .pending && baseFilter user l) db
    approved :=
      countDocs (fun l => l.status = .approved && baseFilter user l) db
    rejected :=
      countDocs (fun l => l.status = .rejected && baseFilter user l) db
    by_month :=
      match aggregatePipeline user db with
      | .ok rows => rows.map (fun r => (monthKey r.1, r.2))
      | .error _ => [] }

/-- The `/leaves/my` endpoint: authenticate, then list. -/
def ep_my (t : Option String) (db : DB) : Except PyError (List Leave) :=
  (auth_user t db).map (fun u => my_leaves u db)

/-- The `/leaves/pending` endpoint: authenticate, then the scoped query. -/
def ep_pending (t : Option String) (db : DB) :
    Except PyError (List Leave) :=
  (auth_user t db).bind (fun u => pending_leaves u db)

/-- The `/stats/overview` endpoint: authenticate, then aggregate. -/
def ep_stats (t : Option String) (db : DB) :
    Except PyError StatsResponse :=
  (auth_user t db).map (fun u => stats_overview u db)

/-- The `/leaves/apply` endpoint: authenticate, then apply. -/
def ep_apply (payload : ApplyRequest) (t : Option String) (newId : String)
    (now : Nat) (db : DB) : Except PyError (String × DB) :=
  (auth_user t db).bind (fun u => apply_leave payload u newId now db)

/-- The `/leaves/{id}/decide` endpoint: authenticate, then decide. -/
def ep_decide (leave_id : String) (payload : DecisionRequest)
    (t : Option String) (now : Date) (db : DB) : Except PyError DB :=
  (auth_user t db).bind (fun u => decide_leave leave_id payload u now db)

/-- Rewrite every user's `is_active` flag by `f` (used to state that the
flag is dead: no operation reads it). -/
def mapActive (f : User → Bool) (db : DB) : DB :=
  { db with users := db.users.map (fun u => { u with is_active := f u }) }

/-- The spec's `InvalidInput` failures of `apply`: the two 400 date
errors. -/
def isInvalidInput (r : Except PyError α) : Prop :=
  r = .error (.http 400 "Invalid date format. Use YYYY-MM-DD") ∨
    r = .error (.http 400 "End date must be after start date")

/-- The spec's `InvalidState` failure of `decide`: 400 with the
"Leave already decided" detail. -/
def isInvalidState (r : Except PyError α) : Prop :=
  r = .error (.http 400 "Leave already decided")

/-! Concrete fixtures (a small populated store) used by the witnesses and
counterexamples below. Object ids are 24-character hex strings, as the
store assigns them. -/

/-- A registered student (token already stored by a login). -/
def exStudent : User :=
  ⟨"aaaaaaaaaaaaaaaaaaaaaaa1", "Alice", "a@x.com", "pw", .student, none,
    true, some "ta"⟩

/-- A registered faculty member. -/
def exFaculty : User :=
  ⟨"aaaaaaaaaaaaaaaaaaaaaaa2", "Bob", "b@x.com", "pw", .faculty, none,
    true, some "tb"⟩

/-- A registered admin. -/
def exAdmin : User :=
  ⟨"aaaaaaaaaaaaaaaaaaaaaaa3", "Cat", "c@x.com", "pw", .admin, none,
    true, some "tc"⟩

/-- A pending leave submitted by the student. -/
def exLeavePending : Leave :=
  ⟨"bbbbbbbbbbbbbbbbbbbbbbb1", "aaaaaaaaaaaaaaaaaaaaaaa1", "Alice",
    .student, "flu", .sick, ⟨2024, 1, 1⟩, ⟨2024, 1, 3⟩, none, .pending,
    none, none, none, none, 5, none⟩

/-- An already-approved leave of the student (decided by the faculty
member). -/
def exLeaveApproved : Leave :=
  ⟨"bbbbbbbbbbbbbbbbbbbbbbb2", "aaaaaaaaaaaaaaaaaaaaaaa1", "Alice",
    .student, "trip", .casual, ⟨2024, 1, 10⟩, ⟨2024, 1, 12⟩, none,
    .approved, some "aaaaaaaaaaaaaaaaaaaaaaa2", some "Bob",
    some .faculty, none, 6, some ⟨2024, 1, 11⟩⟩

/-- A pending leave submitted by the faculty member. -/
def exLeaveFacPending : Leave :=
  ⟨"bbbbbbbbbbbbbbbbbbbbbbb4", "aaaaaaaaaaaaaaaaaaaaaaa2", "Bob",
    .faculty, "conf", .other, ⟨2024, 2, 1⟩, ⟨2024, 2, 2⟩, none, .pending,
    none, none, none, none, 7, none⟩

/-- The populated store. -/
def exDB1 : DB :=
  ⟨[exStudent, exFaculty, exAdmin],
    [exLeavePending, exLeaveApproved, exLeaveFacPending]⟩

/-- An approval decision with no comment. -/
def exDec : DecisionRequest := ⟨.approved, none⟩

/-- A decision date. -/
def exNow : Date := ⟨2024, 3, 1⟩

/-- A user with no session token yet, for the login scenario. -/
def exLoginUser : User :=
  ⟨"aaaaaaaaaaaaaaaaaaaaaaa1", "Alice", "a@x.com", "pw", .student, none,
    true, none⟩

/-- The store before any login. -/
def exDB0 : DB := ⟨[exLoginUser], []⟩

/-- The same user once a login stored the token `id "a@x.com:pw"` (the
digest function is instantiated as `id` in the concrete scenarios). -/
def exLoginUserTok : User := { exLoginUser with token := some "a@x.com:pw" }

/-- The store after one (equivalently, two) successful logins. -/
def exDB0t : DB := ⟨[exLoginUserTok], []⟩

/-- The login response both the first and the second login return. -/
def exResp : LoginResponse :=
  ⟨"a@x.com:pw", "aaaaaaaaaaaaaaaaaaaaaaa1", "Alice", "a@x.com",
    .student, none⟩

/-- The store of the race scenario: one pending student leave. -/
def exRaceDB : DB := ⟨[exStudent, exFaculty, exAdmin], [exLeavePending]⟩

/-- State after the first interleaved decide writes its approval. -/
def exRaceDB1 : DB :=
  decideApply exLeavePending ⟨.approved, none⟩ exFaculty ⟨2024, 3, 1⟩
    exRaceDB

/-- State after the second interleaved decide overwrites it with a
rejection. -/
def exRaceDB2 : DB :=
  decideApply exLeavePending ⟨.rejected, some "no"⟩ exAdmin ⟨2024, 3, 2⟩
    exRaceDB1

/-- A store holding an approved leave whose `decided_at` is missing: the
input on which the stats aggregation throws. -/
def exDBBadDecidedAt : DB :=
  ⟨[exStudent, exFaculty, exAdmin],
    [exLeavePending,
      { exLeaveApproved with
        oid := "bbbbbbbbbbbbbbbbbbbbbbb3", decided_at := none }]⟩

/-- An apply request whose end date precedes its start date. -/
def exBadApply : ApplyRequest :=
  ⟨"r", .sick, "2024-01-05", "2024-01-02", none⟩

/-! Helper lemmas. -/

/-- A successful login for email `e` with password `p` issues the token
determined by `e` and `hash_password H p` alone (success forces the stored
hash to equal `hash_password H p`, and the found user to carry email `e`),
whatever the state of the store. -/
lemma login_token_eq (H : String → String) (e p : String) (d d' : DB)
    (r : LoginResponse) (h : login H e p d = .ok (r, d')) :
    r.token = make_token H e (hash_password H p) := by
  unfold login at h
  cases hf : d.users.find? (fun u => u.email = e) with
  | none => rw [hf] at h; exact absurd h (by simp)
  | some u =>
    rw [hf] at h
    simp only [] at h
    by_cases hpw : u.password_hash = hash_password H p
    · rw [if_neg (not_not_intro hpw)] at h
      simp only [Except.ok.injEq, Prod.mk.injEq] at h
      have hmail : u.email = e := by simpa using List.find?_some hf
      rw [← h.1]
      show make_token H u.email u.password_hash = _
      rw [hmail, hpw]
    · rw [if_pos hpw] at h
      exact absurd h (by simp)

/-!
C1. The claim reads: after a second successful login for the same user (the
stored credential hash unchanged), presenting the token issued by the first
login to `authenticate` fails with `Unauthenticated`. The code refutes it:
`make_token` is a deterministic function of email and stored hash, so the
second login issues the SAME token string and stores it again; the first
token therefore still authenticates.
-/

/-- C1 counterexample: a concrete user logs in twice with the same
password; both logins return the same token `"a@x.com:pw"` (digest
instantiated as `id`), and `auth_user` with the first token on the
post-second-login store succeeds — it is not an `Unauthenticated` (401)
failure as the claim demands. -/
theorem C1_counterexample_first_token_still_authenticates :
    login id "a@x.com" "pw" exDB0 = .ok (exResp, exDB0t) ∧
    login id "a@x.com" "pw" exDB0t = .ok (exResp, exDB0t) ∧
    auth_user (some exResp.token) exDB0t = .ok exLoginUserTok ∧
    ¬ (auth_user (some exResp.token) exDB0t =
        .error (.http 401 "Invalid token")) ∧
    ¬ (auth_user (some exResp.token) exDB0t =
        .error (.http 401 "Missing auth token")) :=
  ⟨rfl, rfl, rfl, fun hc => Except.noConfusion hc,
    fun hc => Except.noConfusion hc⟩

/-- C1 (amended): with the stored credential hash unchanged, a second
successful login issues exactly the token of the first
(`issue(email, credential_hash)` is deterministic), so the overwrite of the
stored token does NOT invalidate the first token: an `authenticate` call
presenting the first token behaves identically to one presenting the
second. -/
theorem C1_login_twice_token_stable (H : String → String) (e p : String)
    (db db1 db2 : DB) (r1 r2 : LoginResponse)
    (h1 : login H e p db = .ok (r1, db1))
    (h2 : login H e p db1 = .ok (r2, db2)) :
    r1.token = r2.token ∧
      auth_user (some r1.token) db2 = auth_user (some r2.token) db2 := by
  have k1 := login_token_eq H e p db db1 r1 h1
  have k2 := login_token_eq H e p db1 db2 r2 h2
  have ht : r1.token = r2.token := k1.trans k2.symm
  exact ⟨ht, by rw [ht]⟩

/-- C1 witness: the amended theorem applied to the concrete double-login
scenario. -/
theorem C1_witness :
    login id "a@x.com" "pw" exDB0 = .ok (exResp, exDB0t) ∧
    login id "a@x.com" "pw" exDB0t = .ok (exResp, exDB0t) ∧
    (exResp.token = exResp.token ∧
      auth_user (some exResp.token) exDB0t =
        auth_user (some exResp.token) exDB0t) :=
  ⟨rfl, rfl,
    C1_login_twice_token_stable id "a@x.com" "pw" exDB0 exDB0t exDB0t
      exResp exResp rfl rfl⟩

/-!
C2. The claim reads: for a terminal (approved/rejected) leave, a decide
call by ANY role — student included — fails with `InvalidState`. The code
checks the role first (main.py line 176): a student caller is refused 403
"Not authorized" before the status of the leave is ever read, so for a
student caller the failure is `Forbidden`, not `InvalidState`. For faculty
and admin callers the claim holds: the status check (line 182) fires
before the faculty-applicant rule, so the failure is always
`InvalidState`.
-/

/-- C2 counterexample: a student caller deciding the already-approved
leave receives 403 "Not authorized" — a `Forbidden` failure, not the
`InvalidState` failure the claim demands for every role. -/
theorem C2_counterexample_student_gets_forbidden_not_invalid_state :
    decide_leave "bbbbbbbbbbbbbbbbbbbbbbb2" exDec exStudent exNow exDB1 =
      .error (.http 403 "Not authorized") ∧
    ¬ isInvalidState
        (decide_leave "bbbbbbbbbbbbbbbbbbbbbbb2" exDec exStudent exNow
          exDB1) := by
  constructor
  · rfl
  · intro hc
    unfold isInvalidState at hc
    rw [show decide_leave "bbbbbbbbbbbbbbbbbbbbbbb2" exDec exStudent exNow
        exDB1 = .error (.http 403 "Not authorized") from rfl] at hc
    simp at hc

/-- C2 (amended): a decide on a leave already in a terminal state
(approved or rejected) fails with `InvalidState` for every faculty or
admin caller and either decision value; a student caller instead fails
with `Forbidden` (403 "Not authorized"), refused by the role gate before
the state of the leave is consulted. -/
theorem C2_decide_terminal_invalid_state (db : DB) (l : Leave)
    (leave_id : String) (payload : DecisionRequest) (user : User)
    (now : Date)
    (hval : isValidObjectId leave_id = true)
    (hfind : db.leaves.find? (fun x => x.oid = strLower leave_id) = some l)
    (hterm : l.status = .approved ∨ l.status = .rejected) :
    (user.role = .faculty ∨ user.role = .admin →
      decide_leave leave_id payload user now db =
        .error (.http 400 "Leave already decided")) ∧
    (user.role = .student →
      decide_leave leave_id payload user now db =
        .error (.http 403 "Not authorized")) := by
  have hne : l.status ≠ .pending := by
    rcases hterm with h | h <;> simp [h]
  constructor
  · intro hrole
    rcases hrole with h | h <;>
      simp [decide_leave, decideFind, parseObjectId, Except.map, hval, hfind, hne, h]
  · intro hrole
    simp [decide_leave, decideFind, Except.map, hrole]

/-- C2 witness: on the concrete store, both a faculty and an admin second
decide of the approved leave fail `InvalidState`, and a student caller
fails `Forbidden`. -/
theorem C2_witness :
    decide_leave "bbbbbbbbbbbbbbbbbbbbbbb2" exDec exFaculty exNow exDB1 =
      .error (.http 400 "Leave already decided") ∧
    decide_leave "bbbbbbbbbbbbbbbbbbbbbbb2" ⟨.rejected, none⟩ exAdmin exNow
      exDB1 = .error (.http 400 "Leave already decided") ∧
    decide_leave "bbbbbbbbbbbbbbbbbbbbbbb2" exDec exStudent exNow exDB1 =
      .error (.http 403 "Not authorized") := by
  refine ⟨?_, ?_, ?_⟩
  · exact (C2_decide_terminal_invalid_state exDB1 exLeaveApproved
      "bbbbbbbbbbbbbbbbbbbbbbb2" exDec exFaculty exNow (by decide) (by decide)
      (Or.inl rfl)).1 (Or.inl rfl)
  · exact (C2_decide_terminal_invalid_state exDB1 exLeaveApproved
      "bbbbbbbbbbbbbbbbbbbbbbb2" ⟨.rejected, none⟩ exAdmin exNow (by decide) (by decide)
      (Or.inl rfl)).1 (Or.inr rfl)
  · exact (C2_decide_terminal_invalid_state exDB1 exLeaveApproved
      "bbbbbbbbbbbbbbbbbbbbbbb2" exDec exStudent exNow (by decide) (by decide)
      (Or.inl rfl)).2 rfl

/-- C3: on a pending leave, a faculty caller succeeds exactly on
student-submitted leaves and is `Forbidden` on any other applicant role;
an admin caller succeeds regardless of applicant role; a student caller is
always refused. Success returns `ok` and writes the decision via
`decideApply`. -/
theorem C3_decide_pending_permission_matrix (db : DB) (l : Leave)
    (leave_id : String) (payload : DecisionRequest) (user : User)
    (now : Date)
    (hval : isValidObjectId leave_id = true)
    (hfind : db.leaves.find? (fun x => x.oid = strLower leave_id) = some l)
    (hpend : l.status = .pending) :
    (user.role = .faculty → l.applicant_role = .student →
      decide_leave leave_id payload user now db =
        .ok (decideApply l payload user now db)) ∧
    (user.role = .faculty → l.applicant_role ≠ .student →
      decide_leave leave_id payload user now db =
        .error (.http 403 "Faculty can only decide student leaves")) ∧
    (user.role = .admin →
      decide_leave leave_id payload user now db =
        .ok (decideApply l payload user now db)) ∧
    (user.role = .student →
      decide_leave leave_id payload user now db =
        .error (.http 403 "Not authorized")) := by
  refine ⟨fun hr ha => ?_, fun hr ha => ?_, fun hr => ?_, fun hr => ?_⟩
  · simp [decide_leave, decideFind, parseObjectId, Except.map, hval, hfind,
      hpend, hr, ha]
  · simp [decide_leave, decideFind, parseObjectId, Except.map, hval, hfind,
      hpend, hr, ha]
  · simp [decide_leave, decideFind, parseObjectId, Except.map, hval, hfind,
      hpend, hr]
  · simp [decide_leave, decideFind, Except.map, hr]

/-- C3 witness: on the concrete store, the faculty member approves the
pending student leave but is refused on the pending faculty leave; the
admin approves the faculty leave; the student is refused outright. -/
theorem C3_witness :
    decide_leave "bbbbbbbbbbbbbbbbbbbbbbb1" exDec exFaculty exNow exDB1 =
      .ok (decideApply exLeavePending exDec exFaculty exNow exDB1) ∧
    decide_leave "bbbbbbbbbbbbbbbbbbbbbbb4" exDec exFaculty exNow exDB1 =
      .error (.http 403 "Faculty can only decide student leaves") ∧
    decide_leave "bbbbbbbbbbbbbbbbbbbbbbb4" exDec exAdmin exNow exDB1 =
      .ok (decideApply exLeaveFacPending exDec exAdmin exNow exDB1) ∧
    decide_leave "bbbbbbbbbbbbbbbbbbbbbbb1" exDec exStudent exNow exDB1 =
      .error (.http 403 "Not authorized") := by
  refine ⟨?_, ?_, ?_, ?_⟩
  · exact (C3_decide_pending_permission_matrix exDB1 exLeavePending
      "bbbbbbbbbbbbbbbbbbbbbbb1" exDec exFaculty exNow (by decide) (by decide) rfl).1
      rfl rfl
  · exact (C3_decide_pending_permission_matrix exDB1 exLeaveFacPending
      "bbbbbbbbbbbbbbbbbbbbbbb4" exDec exFaculty exNow (by decide) (by decide) rfl).2.1
      rfl (by decide)
  · exact (C3_decide_pending_permission_matrix exDB1 exLeaveFacPending
      "bbbbbbbbbbbbbbbbbbbbbbb4" exDec exAdmin exNow (by decide) (by decide) rfl).2.2.1
      rfl
  · exact (C3_decide_pending_permission_matrix exDB1 exLeavePending
      "bbbbbbbbbbbbbbbbbbbbbbb1" exDec exStudent exNow (by decide) (by decide) rfl).2.2.2
      rfl

/-- Date comparison is irreflexive: a date is not before itself. -/
lemma Date.lt_irrefl (d : Date) : Date.lt d d = false := by
  simp [Date.lt]

/-- C4: for a caller whose role permits applying (student or faculty), an
apply fails with `InvalidInput` (a 400 date error) exactly when one of the
two date strings does not parse as a calendar date or when the parsed end
date precedes the parsed start date; and when both parse to the same date
(end_date = start_date) the request is never rejected for this reason. -/
theorem C4_apply_invalid_input_iff (payload : ApplyRequest) (user : User)
    (newId : String) (now : Nat) (db : DB)
    (hrole : user.role = .student ∨ user.role = .faculty) :
    (isInvalidInput (apply_leave payload user newId now db) ↔
      parseDate payload.start_date = none ∨
        parseDate payload.end_date = none ∨
        (∃ sd ed, parseDate payload.start_date = some sd ∧
          parseDate payload.end_date = some ed ∧ Date.lt ed sd = true)) ∧
    (∀ d1 d2, parseDate payload.start_date = some d1 →
      parseDate payload.end_date = some d2 → d1 = d2 →
        ¬ isInvalidInput (apply_leave payload user newId now db)) := by
  have hro := not_not_intro hrole
  constructor
  · unfold apply_leave
    rw [if_neg hro]
    cases hs : parseDate payload.start_date with
    | none => simp [isInvalidInput]
    | some sd =>
      cases he : parseDate payload.end_date with
      | none => simp [isInvalidInput]
      | some ed =>
        by_cases hlt : Date.lt ed sd = true
        · simp [isInvalidInput, hlt]
        · simp [isInvalidInput, hlt]
  · intro d1 d2 h1 h2 h12
    subst h12
    unfold apply_leave
    rw [if_neg hro, h1, h2]
    simp [isInvalidInput, Date.lt_irrefl]

/-- C4 witness: the request with end date 2024-01-02 before start date
2024-01-05 is an `InvalidInput` failure for the student caller; with both
dates equal to 2024-01-05 it is not. -/
theorem C4_witness :
    isInvalidInput
      (apply_leave exBadApply exStudent "bbbbbbbbbbbbbbbbbbbbbbb9" 9
        exDB1) ∧
    ¬ isInvalidInput
        (apply_leave ⟨"r", .sick, "2024-01-05", "2024-01-05", none⟩
          exStudent "bbbbbbbbbbbbbbbbbbbbbbb9" 9 exDB1) := by
  constructor
  · exact (C4_apply_invalid_input_iff exBadApply exStudent
      "bbbbbbbbbbbbbbbbbbbbbbb9" 9 exDB1 (Or.inl rfl)).1.mpr
      (Or.inr (Or.inr ⟨⟨2024, 1, 5⟩, ⟨2024, 1, 2⟩, by decide, by decide,
        by decide⟩))
  · exact (C4_apply_invalid_input_iff
      ⟨"r", .sick, "2024-01-05", "2024-01-05", none⟩ exStudent
      "bbbbbbbbbbbbbbbbbbbbbbb9" 9 exDB1 (Or.inl rfl)).2
      ⟨2024, 1, 5⟩ ⟨2024, 1, 5⟩ (by decide) (by decide) rfl

/-- C5: the pending queue is forbidden for students; a faculty caller gets
exactly the pending student-submitted leaves and an admin caller exactly
all pending leaves (as a permutation of the corresponding filter of the
store, with membership characterized), ordered by `submitted_at`
descending. -/
theorem C5_pending_leaves_spec (user : User) (db : DB) :
    (user.role = .student →
      pending_leaves user db =
        .error (.http 403 "Students cannot view pending approvals")) ∧
    (user.role = .faculty → ∃ items,
      pending_leaves user db = .ok items ∧
      items.Perm (db.leaves.filter
        (fun l => l.status = .pending && l.applicant_role = .student)) ∧
      (∀ l, l ∈ items ↔
        l ∈ db.leaves ∧ l.status = .pending ∧
          l.applicant_role = .student) ∧
      items.Sorted submittedGE) ∧
    (user.role = .admin → ∃ items,
      pending_leaves user db = .ok items ∧
      items.Perm (db.leaves.filter (fun l => l.status = .pending)) ∧
      (∀ l, l ∈ items ↔ l ∈ db.leaves ∧ l.status = .pending) ∧
      items.Sorted submittedGE) := by
  refine ⟨fun h => ?_, fun h => ?_, fun h => ?_⟩
  · simp [pending_leaves, h]
  · refine ⟨sortBySubmittedDesc (db.leaves.filter
      (fun l => l.status = .pending && l.applicant_role = .student)),
      ?_, List.perm_insertionSort _ _, fun l => ?_,
      List.sorted_insertionSort _ _⟩
    · simp [pending_leaves, h]
    · unfold sortBySubmittedDesc
      rw [List.mem_insertionSort, List.mem_filter]
      simp
  · refine ⟨sortBySubmittedDesc (db.leaves.filter
      (fun l => l.status = .pending)),
      ?_, List.perm_insertionSort _ _, fun l => ?_,
      List.sorted_insertionSort _ _⟩
    · simp [pending_leaves, h]
    · unfold sortBySubmittedDesc
      rw [List.mem_insertionSort, List.mem_filter]
      simp

/-- C5 witness: the theorem applied to the three concrete callers on the
populated store. -/
theorem C5_witness :
    (pending_leaves exStudent exDB1 =
      .error (.http 403 "Students cannot view pending approvals")) ∧
    (∃ items, pending_leaves exFaculty exDB1 = .ok items ∧
      items.Perm (exDB1.leaves.filter
        (fun l => l.status = .pending && l.applicant_role = .student)) ∧
      (∀ l, l ∈ items ↔
        l ∈ exDB1.leaves ∧ l.status = .pending ∧
          l.applicant_role = .student) ∧
      items.Sorted submittedGE) ∧
    (∃ items, pending_leaves exAdmin exDB1 = .ok items ∧
      items.Perm (exDB1.leaves.filter (fun l => l.status = .pending)) ∧
      (∀ l, l ∈ items ↔ l ∈ exDB1.leaves ∧ l.status = .pending) ∧
      items.Sorted submittedGE) :=
  ⟨(C5_pending_leaves_spec exStudent exDB1).1 rfl,
    (C5_pending_leaves_spec exFaculty exDB1).2.1 rfl,
    (C5_pending_leaves_spec exAdmin exDB1).2.2 rfl⟩

/-- C6: for every authenticated identity of any role, listMine returns
exactly the leaves whose `applicant_id` equals the caller's id (it is a
permutation of that filter of the store, and membership holds iff the
leave belongs to the caller — so never a leave of another user), ordered
by `submitted_at` descending. -/
theorem C6_my_leaves_spec (user : User) (db : DB) :
    (my_leaves user db).Perm
      (db.leaves.filter (fun l => l.applicant_id = user.oid)) ∧
    (∀ l, l ∈ my_leaves user db ↔
      l ∈ db.leaves ∧ l.applicant_id = user.oid) ∧
    (my_leaves user db).Sorted submittedGE := by
  refine ⟨List.perm_insertionSort _ _, fun l => ?_,
    List.sorted_insertionSort _ _⟩
  unfold my_leaves sortBySubmittedDesc
  rw [List.mem_insertionSort, List.mem_filter]
  simp

/-- C6 witness: the theorem instantiated at the concrete student and the
populated store. -/
theorem C6_witness :
    (my_leaves exStudent exDB1).Perm
      (exDB1.leaves.filter (fun l => l.applicant_id = exStudent.oid)) ∧
    (∀ l, l ∈ my_leaves exStudent exDB1 ↔
      l ∈ exDB1.leaves ∧ l.applicant_id = exStudent.oid) ∧
    (my_leaves exStudent exDB1).Sorted submittedGE :=
  C6_my_leaves_spec exStudent exDB1

/-- C7: every entry of the by-month mapping is keyed by a year-month and
counts exactly the decided-status matched leaves whose `decided_at` bears
that year-month — a leave with no decision timestamp never contributes (the
counting predicate is false on a missing `decided_at`, and a store
containing such a leave makes the pipeline error instead); and whenever
the grouping pipeline errors, the overview still returns, with an empty
by-month mapping and the four counts unchanged. -/
theorem C7_stats_by_month_spec (user : User) (db : DB) :
    (∀ kv ∈ (stats_overview user db).by_month, ∃ ym : Nat × Nat,
      kv = (monthKey ym,
        (statsMatched user db).countP
          (fun l => l.decided_at.any
            (fun d => (d.year, d.month) = ym)))) ∧
    (∀ e, aggregatePipeline user db = .error e →
      (stats_overview user db).by_month = [] ∧
      (stats_overview user db).total = countDocs (baseFilter user) db ∧
      (stats_overview user db).pending =
        countDocs (fun l => l.status = .pending && baseFilter user l) db ∧
      (stats_overview user db).approved =
        countDocs (fun l => l.status = .approved && baseFilter user l)
          db ∧
      (stats_overview user db).rejected =
        countDocs (fun l => l.status = .rejected && baseFilter user l)
          db) := by
  constructor
  · intro kv hkv
    cases hagg : aggregatePipeline user db with
    | error e =>
      rw [show (stats_overview user db).by_month = [] from by
        simp [stats_overview, hagg]] at hkv
      simp at hkv
    | ok rows =>
      have hbm : (stats_overview user db).by_month =
          rows.map (fun r => (monthKey r.1, r.2)) := by
        simp [stats_overview, hagg]
      rw [hbm] at hkv
      unfold aggregatePipeline at hagg
      simp only [] at hagg
      split at hagg
      · exact absurd hagg (by simp)
      · simp only [Except.ok.injEq] at hagg
        rw [← hagg, List.map_map] at hkv
        simp only [List.mem_map, Function.comp] at hkv
        obtain ⟨p, _, hp⟩ := hkv
        exact ⟨p, hp.symm⟩
  · intro e he
    refine ⟨?_, rfl, rfl, rfl, rfl⟩
    simp [stats_overview, he]

/-- C7 witness: on the store holding an approved leave with no
`decided_at`, the pipeline errors concretely, and the overview still
returns the four counts with an empty by-month mapping. -/
theorem C7_witness :
    (∀ kv ∈ (stats_overview exAdmin exDBBadDecidedAt).by_month,
      ∃ ym : Nat × Nat,
        kv = (monthKey ym,
          (statsMatched exAdmin exDBBadDecidedAt).countP
            (fun l => l.decided_at.any
              (fun d => (d.year, d.month) = ym)))) ∧
    ((stats_overview exAdmin exDBBadDecidedAt).by_month = [] ∧
      (stats_overview exAdmin exDBBadDecidedAt).total =
        countDocs (baseFilter exAdmin) exDBBadDecidedAt ∧
      (stats_overview exAdmin exDBBadDecidedAt).pending =
        countDocs (fun l => l.status = .pending && baseFilter exAdmin l)
          exDBBadDecidedAt ∧
      (stats_overview exAdmin exDBBadDecidedAt).approved =
        countDocs (fun l => l.status = .approved && baseFilter exAdmin l)
          exDBBadDecidedAt ∧
      (stats_overview exAdmin exDBBadDecidedAt).rejected =
        countDocs (fun l => l.status = .rejected && baseFilter exAdmin l)
          exDBBadDecidedAt) :=
  ⟨(C7_stats_by_month_spec exAdmin exDBBadDecidedAt).1,
    (C7_stats_by_month_spec exAdmin exDBBadDecidedAt).2
      "cannot convert missing or null value to date" rfl⟩

/-!
C8. The claim reads: the decide status transition is effected by an atomic
conditional update (update only where status is still pending, reporting
`InvalidState` if no record was affected), so of two concurrent decide
calls on the same pending leave exactly one succeeds. The code has no such
condition: `decide_leave` reads the leave with `find_one` and then runs
`update_one({"_id": leave["_id"]}, {"$set": ...})` — a filter on `_id`
alone. With the two store operations of each call interleaved
(read A, read B, write A, write B), both calls pass every check and both
report success; the second write silently overwrites the first decision.
-/

/-- C8 (code-bug evidence): on the store with one pending leave, both
interleaved reads succeed (both callers see `pending` and pass all
checks); the first write approves the leave; the second write, run by the
unconditional update although the leave is no longer pending, still
rewrites it to rejected — a double decision. Run sequentially instead, the
second decide fails `InvalidState` (last conjunct): only the read/write
gap plus the missing `status: pending` filter admits the race the claim
rules out. -/
theorem C8_unconditional_update_race :
    decideFind "bbbbbbbbbbbbbbbbbbbbbbb1" exFaculty exRaceDB =
      .ok exLeavePending ∧
    decideFind "bbbbbbbbbbbbbbbbbbbbbbb1" exAdmin exRaceDB =
      .ok exLeavePending ∧
    exRaceDB1.leaves.map Leave.status = [.approved] ∧
    exRaceDB2.leaves.map Leave.status = [.rejected] ∧
    exRaceDB2.leaves.map Leave.decided_by_id = [some exAdmin.oid] ∧
    decide_leave "bbbbbbbbbbbbbbbbbbbbbbb1" ⟨.rejected, some "no"⟩ exAdmin
      ⟨2024, 3, 2⟩ exRaceDB1 =
        .error (.http 400 "Leave already decided") := by
  refine ⟨rfl, rfl, rfl, rfl, rfl, rfl⟩

/-!
C9. The claim reads: every `leaveId` string that does not resolve —
including strings that are not well-formed record identifiers — makes
decide fail with `NotFound` and no other failure kind. The code first runs
`ObjectId(leave_id)`, which raises `bson.errors.InvalidId` on a malformed
string; no handler catches it, so a malformed id is NOT a 404 `NotFound`
failure. For a well-formed 24-hex id that resolves to nothing, 404 is
returned as claimed, before any state is modified (the error is raised
before the update call, and the store is returned unchanged only on
success).
-/

/-- C9 counterexample: the malformed id `"abc"` raises `InvalidId` — not
the 404 `NotFound` failure the claim demands for every non-resolving
string. -/
theorem C9_counterexample_malformed_id_raises_invalid_id :
    decide_leave "abc" exDec exAdmin exNow exDB1 =
      .error (.invalidId "abc") ∧
    ¬ (decide_leave "abc" exDec exAdmin exNow exDB1 =
        .error (.http 404 "Leave not found")) := by
  constructor
  · rfl
  · intro hc
    rw [show decide_leave "abc" exDec exAdmin exNow exDB1 =
        .error (.invalidId "abc") from rfl] at hc
    simp at hc

/-- C9 (amended): for every WELL-FORMED (24-hex) leave id that resolves to
no stored leave, decide by an authenticated faculty or admin caller fails
with `NotFound` (404), the store left untouched; a malformed id instead
raises the uncaught `InvalidId` exception. -/
theorem C9_decide_unknown_id_not_found (db : DB) (leave_id : String)
    (payload : DecisionRequest) (user : User) (now : Date)
    (hrole : user.role = .faculty ∨ user.role = .admin)
    (hval : isValidObjectId leave_id = true)
    (hmiss : db.leaves.find? (fun l => l.oid = strLower leave_id) = none) :
    decide_leave leave_id payload user now db =
      .error (.http 404 "Leave not found") := by
  rcases hrole with h | h <;>
    simp [decide_leave, decideFind, parseObjectId, Except.map, hval,
      hmiss, h]

/-- C9 witness: a well-formed 24-hex id unknown to the store yields 404
for the admin caller. -/
theorem C9_witness :
    decide_leave "cccccccccccccccccccccccc" exDec exAdmin exNow exDB1 =
      .error (.http 404 "Leave not found") :=
  C9_decide_unknown_id_not_found exDB1 "cccccccccccccccccccccccc" exDec
    exAdmin exNow (Or.inr rfl) (by decide) (by decide)

/-- Finding a user by token commutes with rewriting every is_active flag
(the predicate never reads the flag). -/
lemma find?_token_mapActive (f : User → Bool) (t : String)
    (l : List User) :
    (l.map (fun u => { u with is_active := f u })).find?
        (fun u => u.token = some t) =
      (l.find? (fun u => u.token = some t)).map
        (fun u => { u with is_active := f u }) := by
  induction l with
  | nil => rfl
  | cons a l ih =>
    by_cases h : a.token = some t
    · simp [List.find?_cons, h]
    · simp [List.find?_cons, h, ih]

/-- Authentication on the flag-rewritten store resolves the same user (up
to its own flag) with the same success or failure. -/
lemma auth_user_mapActive (f : User → Bool) (t : Option String) (db : DB) :
    auth_user t (mapActive f db) =
      (auth_user t db).map (fun u => { u with is_active := f u }) := by
  cases t with
  | none => rfl
  | some s =>
    by_cases hs : s = ""
    · simp [auth_user, hs, Except.map]
    · unfold auth_user
      simp only []
      rw [if_neg hs, if_neg hs,
        show (mapActive f db).users =
          db.users.map (fun u => { u with is_active := f u }) from rfl,
        find?_token_mapActive]
      cases db.users.find? (fun u => u.token = some s) <;> rfl

/-- Applying a leave ignores the is_active flags of the store. -/
lemma apply_leave_mapActive (f : User → Bool) (payload : ApplyRequest)
    (user : User) (newId : String) (now : Nat) (db : DB) :
    apply_leave payload user newId now (mapActive f db) =
      (apply_leave payload user newId now db).map
        (fun r => (r.1, mapActive f r.2)) := by
  unfold apply_leave
  by_cases hr : user.role = .student ∨ user.role = .faculty
  · rw [if_neg (not_not_intro hr), if_neg (not_not_intro hr)]
    cases parseDate payload.start_date with
    | none => cases parseDate payload.end_date <;> rfl
    | some sd =>
      cases parseDate payload.end_date with
      | none => rfl
      | some ed =>
        by_cases hlt : Date.lt ed sd = true
        · simp only [if_pos hlt]; rfl
        · simp only [if_neg hlt]; rfl
  · rw [if_pos hr, if_pos hr]; rfl

/-- Deciding a leave ignores the is_active flags of the store. -/
lemma decide_leave_mapActive (f : User → Bool) (leave_id : String)
    (payload : DecisionRequest) (user : User) (now : Date) (db : DB) :
    decide_leave leave_id payload user now (mapActive f db) =
      (decide_leave leave_id payload user now db).map (mapActive f) := by
  unfold decide_leave
  rw [show decideFind leave_id user (mapActive f db) =
      decideFind leave_id user db from rfl]
  cases decideFind leave_id user db with
  | error e => rfl
  | ok a => rfl

/-- C10: the is_active flag is dead. Rewriting every stored is_active flag
arbitrarily changes nothing observable: authentication resolves the same
user with the same outcome (up to its own flag), and every authenticated
endpoint — list mine, pending queue, stats, apply, decide — returns the
identical client-visible result, with the store differing only by the
flags themselves; in particular a caller whose token authenticates keeps
authenticating after the flags are rewritten (e.g. to false). -/
theorem C10_is_active_flag_is_dead (f : User → Bool) (t : Option String)
    (db : DB) (payload : ApplyRequest) (dreq : DecisionRequest)
    (leave_id newId : String) (now : Nat) (nowD : Date) :
    auth_user t (mapActive f db) =
      (auth_user t db).map (fun u => { u with is_active := f u }) ∧
    ep_my t (mapActive f db) = ep_my t db ∧
    ep_pending t (mapActive f db) = ep_pending t db ∧
    ep_stats t (mapActive f db) = ep_stats t db ∧
    ep_apply payload t newId now (mapActive f db) =
      (ep_apply payload t newId now db).map
        (fun r => (r.1, mapActive f r.2)) ∧
    ep_decide leave_id dreq t nowD (mapActive f db) =
      (ep_decide leave_id dreq t nowD db).map (mapActive f) ∧
    ((auth_user t db).isOk = true →
      (auth_user t (mapActive f db)).isOk = true) := by
  refine ⟨auth_user_mapActive f t db, ?_, ?_, ?_, ?_, ?_, ?_⟩
  · unfold ep_my
    rw [auth_user_mapActive]
    cases auth_user t db <;> rfl
  · unfold ep_pending
    rw [auth_user_mapActive]
    cases auth_user t db <;> rfl
  · unfold ep_stats
    rw [auth_user_mapActive]
    cases auth_user t db <;> rfl
  · unfold ep_apply
    rw [auth_user_mapActive]
    cases auth_user t db with
    | error e => rfl
    | ok u => exact apply_leave_mapActive f payload u newId now db
  · unfold ep_decide
    rw [auth_user_mapActive]
    cases auth_user t db with
    | error e => rfl
    | ok u => exact decide_leave_mapActive f leave_id dreq u nowD db
  · intro h
    rw [auth_user_mapActive]
    cases hx : auth_user t db with
    | error e => rw [hx] at h; exact absurd h (by simp [Except.isOk, Except.toBool])
    | ok u => rfl

/-- C10 witness: on the populated store the student token authenticates;
after every is_active flag is forced to false the same token still
authenticates, resolving the now-inactive user. -/
theorem C10_witness :
    (auth_user (some "ta") exDB1).isOk = true ∧
    (auth_user (some "ta") (mapActive (fun _ => false) exDB1)).isOk =
      true ∧
    auth_user (some "ta") (mapActive (fun _ => false) exDB1) =
      .ok { exStudent with is_active := false } :=
  ⟨rfl,
    (C10_is_active_flag_is_dead (fun _ => false) (some "ta") exDB1
      ⟨"r", .sick, "2024-01-01", "2024-01-02", none⟩ exDec
      "bbbbbbbbbbbbbbbbbbbbbbb1" "bbbbbbbbbbbbbbbbbbbbbbb9" 0
      exNow).2.2.2.2.2.2 rfl,
    rfl⟩

end LeaveMgmt
